import Mathlib

/-!
# Verification of the accounting SDK core (`core.py`)

Shallow embedding of the client library's core module.  The repository holds
two near-duplicate copies of the core (`src/accountingSDK/core.py` and
`src/syft_accounting_sdk/core.py`); the pydantic schemas (`User`,
`Transaction`) and `ServiceException` that the `syft_accounting_sdk` copy
imports from its missing `schemas`/`error` modules are embedded from the
in-repository definitions in `src/accountingSDK/core.py`, which the two
copies share.

Modelling conventions:
* `float` amounts and balances are embedded as `Rat` (the claims only involve
  exact comparisons such as `amount <= 0`, which are exact on the values used).
* The HTTP transport (the `requests` library) is an external collaborator: it
  is modelled as an oracle `Request → Except TransportError HttpResponse`.
  A `TransportError` is a connectivity/timeout failure raised by the
  transport; an `HttpResponse` is a delivered response with a status code and
  a parsed JSON body.
* Each client operation returns, next to its `Except` result, the list of
  requests it handed to the transport, so that "makes no network call" and
  "exactly one cancel call" are stated as facts about that list.
* Python exception classes map to `SdkError` constructors:
  `ValueError` (the spec's ValidationError) ↦ `validationError`,
  `ServiceException` (the spec's ServiceError) ↦ `serviceError`,
  `RuntimeError` raised by `TransactionCtx.confirm` (the spec's
  LifecycleError) ↦ `lifecycleError`, a propagated transport failure ↦
  `transportError`, and a pydantic/`KeyError` deserialization failure ↦
  `parseError`.
-/

namespace AccountingSDK

/-- Minimal JSON values, the shape `response.json()` yields. -/
inductive Json where
  | null : Json
  | str (s : String) : Json
  | num (q : Rat) : Json
  | bool (b : Bool) : Json
  | arr (items : List Json) : Json
  | obj (fields : List (String × Json)) : Json
  deriving Repr

/-- First value stored under key `k`, as Python `dict` access / `.get`. -/
def Json.lookup (j : Json) (k : String) : Option Json :=
  match j with
  | .obj fields => (fields.find? (fun p => p.1 = k)).map Prod.snd
  | _ => none

def Json.asStr : Json → Option String
  | .str s => some s
  | _ => none

def Json.asNum : Json → Option Rat
  | .num q => some q
  | _ => none

/-- `CreatorType = Literal["SYSTEM", "SENDER", "RECIPIENT"]`. -/
inductive CreatorType where
  | SYSTEM | SENDER | RECIPIENT
  deriving Repr, DecidableEq

/-- `TransactionStatus = Literal["PENDING", "COMPLETED", "CANCELLED"]`. -/
inductive TransactionStatus where
  | PENDING | COMPLETED | CANCELLED
  deriving Repr, DecidableEq

def CreatorType.ofString : String → Option CreatorType
  | "SYSTEM" => some .SYSTEM
  | "SENDER" => some .SENDER
  | "RECIPIENT" => some .RECIPIENT
  | _ => none

def TransactionStatus.ofString : String → Option TransactionStatus
  | "PENDING" => some .PENDING
  | "COMPLETED" => some .COMPLETED
  | "CANCELLED" => some .CANCELLED
  | _ => none

/-- pydantic model `User` (`id`, `email`, `balance >= 0`). -/
structure User where
  id : String
  email : String
  balance : Rat
  deriving Repr, DecidableEq

/-- pydantic model `Transaction`; timestamps are kept as their wire strings. -/
structure Transaction where
  id : String
  senderEmail : String
  recipientEmail : String
  createdBy : CreatorType
  resolvedBy : Option CreatorType
  amount : Rat
  status : TransactionStatus
  createdAt : String
  resolvedAt : Option String
  deriving Repr, DecidableEq

/-- `User(**data)`: required fields `id`, `email`, `balance`; pydantic
rejects `balance < 0` (`Field(ge=0.0)`); unknown extra fields are ignored. -/
def User.parse (j : Json) : Option User := do
  let id ← (j.lookup "id").bind Json.asStr
  let email ← (j.lookup "email").bind Json.asStr
  let balance ← (j.lookup "balance").bind Json.asNum
  if 0 ≤ balance then some { id := id, email := email, balance := balance }
  else none

/-- Parse an optional field: absent or JSON `null` is `none`, a present value
must parse (as pydantic `Optional[...]` with default `None`). -/
def parseOptional (f : Json → Option α) : Option Json → Option (Option α)
  | none => some none
  | some .null => some none
  | some v => (f v).map some

/-- `Transaction(**data)`: required fields per the schema; `resolvedBy` and
`resolvedAt` default to `None`; pydantic rejects `amount <= 0`
(`Field(gt=0.0)` plus the `validate_amount` validator). -/
def Transaction.parse (j : Json) : Option Transaction := do
  let id ← (j.lookup "id").bind Json.asStr
  let senderEmail ← (j.lookup "senderEmail").bind Json.asStr
  let recipientEmail ← (j.lookup "recipientEmail").bind Json.asStr
  let createdBy ← (j.lookup "createdBy").bind (fun v =>
    v.asStr.bind CreatorType.ofString)
  let resolvedBy ← parseOptional (fun v => v.asStr.bind CreatorType.ofString)
    (j.lookup "resolvedBy")
  let amount ← (j.lookup "amount").bind Json.asNum
  let status ← (j.lookup "status").bind (fun v =>
    v.asStr.bind TransactionStatus.ofString)
  let createdAt ← (j.lookup "createdAt").bind Json.asStr
  let resolvedAt ← parseOptional Json.asStr (j.lookup "resolvedAt")
  if 0 < amount then
    some { id := id, senderEmail := senderEmail, recipientEmail := recipientEmail,
           createdBy := createdBy, resolvedBy := resolvedBy, amount := amount,
           status := status, createdAt := createdAt, resolvedAt := resolvedAt }
  else none

/-- A request handed to the transport, identified by endpoint and JSON body
content (auth headers are the transport's concern). -/
inductive Request where
  | createUser (email : String) (password : Option String)
  | addBalance (recipientEmail : String) (amount : Rat)
  | getUser (email : String)
  | getUsers
  | myInfo
  | createTransaction (senderEmail recipientEmail : String) (amount : Rat)
      (token : Option String)
  | createToken (recipientEmail : String)
  | confirmTransaction (transactionId : String)
  | cancelTransaction (transactionId : String)
  | history
  deriving Repr, DecidableEq

/-- A connectivity/timeout failure raised by the `requests` transport. -/
inductive TransportError where
  | connectionError (message : String)
  | timeout (message : String)
  deriving Repr, DecidableEq

/-- A delivered HTTP response: status code and parsed JSON body. -/
structure HttpResponse where
  status_code : Nat
  body : Json
  deriving Repr

/-- `requests.Response.ok`: true iff the status code is below 400. -/
def HttpResponse.ok (r : HttpResponse) : Bool :=
  r.status_code < 400

/-- The transport oracle: what the external collaborator does with a request. -/
def Transport : Type := Request → Except TransportError HttpResponse

/-- Errors surfacing from a core operation (Python exception classes). -/
inductive SdkError where
  /-- `ValueError`: locally detected precondition violation. -/
  | validationError (message : String)
  /-- `ServiceException(status_code, body)`. -/
  | serviceError (status_code : Nat) (body : Json)
  /-- `RuntimeError` from the lifecycle controller. -/
  | lifecycleError (message : String)
  /-- A transport failure propagating unchanged. -/
  | transportError (e : TransportError)
  /-- pydantic validation failure or missing field on a success body. -/
  | parseError
  deriving Repr

/-- Result of an operation plus the requests it issued, in order. -/
def OpResult (α : Type) : Type := Except SdkError α × List Request

/-- Issue one request and handle the shared failure contract: a transport
failure propagates unchanged; a non-success response raises
`ServiceException(status_code, body)`; a success body is fed to `k`. -/
def issue (transport : Transport) (req : Request)
    (k : Json → Except SdkError α) : OpResult α :=
  match transport req with
  | .error e => (.error (.transportError e), [req])
  | .ok resp =>
    if resp.ok then (k resp.body, [req])
    else (.error (.serviceError resp.status_code resp.body), [req])

/-- Extract `body[field]` and parse it, as `Model(**response.json()[field])`:
a missing field (`KeyError`) or a pydantic failure is a `parseError`. -/
def parseField (f : Json → Option α) (field : String) (body : Json) :
    Except SdkError α :=
  match (body.lookup field).bind f with
  | some a => .ok a
  | none => .error .parseError

/-- Python truthiness of `password` in `password or data["password"]`:
`None` and the empty string are falsy. -/
def truthy : Option String → Bool
  | none => false
  | some s => !(s = "")

/-- `AdminClient`: base URL plus administrative bearer key. -/
structure AdminClient where
  url : String
  key : String
  deriving Repr, DecidableEq

/-- `UserClient`: base URL plus the authenticated identity (basic auth). -/
structure UserClient where
  url : String
  email : String
  password : String
  deriving Repr, DecidableEq

/-- Shared body of `AdminClient.create_user` and the classmethod
`UserClient.create_user`, whose code is identical: POST `/user/create`, then
`User(**data["user"]), password or data["password"]`. -/
def create_user_request (email : String) (password : Option String)
    (transport : Transport) : OpResult (User × String) :=
  issue transport (.createUser email password) (fun body => do
    let u ← parseField User.parse "user" body
    if truthy password then
      .ok (u, password.getD "")
    else
      match (body.lookup "password").bind Json.asStr with
      | some generated => .ok (u, generated)
      | none => .error .parseError)

/-- `AdminClient.create_user(email, password=None)`. -/
def AdminClient.create_user (_c : AdminClient) (email : String)
    (password : Option String) (transport : Transport) :
    OpResult (User × String) :=
  create_user_request email password transport

/-- `AdminClient.add_balance(email, amount)`: local positivity check before
any request, then POST `/user/add-balance`. -/
def AdminClient.add_balance (_c : AdminClient) (email : String) (amount : Rat)
    (transport : Transport) : OpResult User :=
  if amount ≤ 0 then (.error (.validationError "Amount must be positive"), [])
  else
    issue transport (.addBalance email amount) (parseField User.parse "user")

/-- `AdminClient.get_user(email)`: GET `/user/{email}`. -/
def AdminClient.get_user (_c : AdminClient) (email : String)
    (transport : Transport) : OpResult User :=
  issue transport (.getUser email) (parseField User.parse "user")

/-- Return shape of `get_all_users`, per the `format` selector. -/
inductive UsersResult where
  | asList (users : List User)
  | asDict (entries : List (String × User))
  deriving Repr, DecidableEq

/-- Python `dict` insertion: a fresh key is appended, an existing key keeps
its position and takes the new value. -/
def dictInsert (entries : List (String × User)) (k : String) (v : User) :
    List (String × User) :=
  if entries.any (fun p => p.1 = k) then
    entries.map (fun p => if p.1 = k then (p.1, v) else p)
  else entries ++ [(k, v)]

/-- The comprehension `{user.email: user for user in users}`. -/
def dictOfUsers (users : List User) : List (String × User) :=
  users.foldl (fun acc u => dictInsert acc u.email u) []

/-- `[User(**item) for item in ...]`: every element must deserialize. -/
def parseUserList (items : List Json) : Option (List User) :=
  items.mapM User.parse

/-- `AdminClient.get_all_users(format="list")`: GET `/users` first; the
response is parsed, and `format` selects list versus dict with **no**
validation of other values (any `format ≠ "list"` yields the dict). -/
def AdminClient.get_all_users (_c : AdminClient) (format : String)
    (transport : Transport) : OpResult UsersResult :=
  issue transport .getUsers (fun body =>
    match body.lookup "users" with
    | some (Json.arr items) =>
      match parseUserList items with
      | some users =>
        if format = "list" then .ok (.asList users)
        else .ok (.asDict (dictOfUsers users))
      | none => .error .parseError
    | _ => .error .parseError)

/-- Classmethod `UserClient.create_user(url, email, password=None)`: same
code as the admin version, issued without a session. -/
def UserClient.create_user (_url : String) (email : String)
    (password : Option String) (transport : Transport) :
    OpResult (User × String) :=
  create_user_request email password transport

/-- `UserClient.get_user_info()`: GET `/user/my-info`. -/
def UserClient.get_user_info (_c : UserClient) (transport : Transport) :
    OpResult User :=
  issue transport .myInfo (parseField User.parse "user")

/-- `UserClient.create_transaction(recipientEmail, amount)`: local positivity
check before any request; the request carries `senderEmail = self.email`. -/
def UserClient.create_transaction (c : UserClient) (recipientEmail : String)
    (amount : Rat) (transport : Transport) : OpResult Transaction :=
  if amount ≤ 0 then (.error (.validationError "Amount must be positive"), [])
  else
    issue transport (.createTransaction c.email recipientEmail amount none)
      (parseField Transaction.parse "transaction")

/-- `UserClient.create_delegated_transaction(senderEmail, amount, token)`:
local positivity check before any request; the request carries
`recipientEmail = self.email` and the delegation token. -/
def UserClient.create_delegated_transaction (c : UserClient)
    (senderEmail : String) (amount : Rat) (token : String)
    (transport : Transport) : OpResult Transaction :=
  if amount ≤ 0 then (.error (.validationError "Amount must be positive"), [])
  else
    issue transport (.createTransaction senderEmail c.email amount (some token))
      (parseField Transaction.parse "transaction")

/-- `UserClient.create_transaction_token(recipientEmail)`. -/
def UserClient.create_transaction_token (_c : UserClient)
    (recipientEmail : String) (transport : Transport) : OpResult String :=
  issue transport (.createToken recipientEmail)
    (parseField Json.asStr "token")

/-- `UserClient.confirm_transaction(id)`: POST `/transaction/confirm`. -/
def UserClient.confirm_transaction (_c : UserClient) (id : String)
    (transport : Transport) : OpResult Transaction :=
  issue transport (.confirmTransaction id)
    (parseField Transaction.parse "transaction")

/-- `UserClient.cancel_transaction(id)`: POST `/transaction/cancel`. -/
def UserClient.cancel_transaction (_c : UserClient) (id : String)
    (transport : Transport) : OpResult Transaction :=
  issue transport (.cancelTransaction id)
    (parseField Transaction.parse "transaction")

/-- `UserClient.get_transaction_history()`. -/
def UserClient.get_transaction_history (_c : UserClient)
    (transport : Transport) : OpResult (List Transaction) :=
  issue transport .history (fun body =>
    match body.lookup "transactions" with
    | some (Json.arr items) =>
      match items.mapM Transaction.parse with
      | some ts => .ok ts
      | none => .error .parseError
    | _ => .error .parseError)

/-- State of a `TransactionCtx` lifecycle controller. -/
structure TransactionCtx where
  client : UserClient
  email : String
  amount : Rat
  transaction : Option Transaction
  confirmed : Bool
  deriving Repr, DecidableEq

/-- `TransactionCtx.__init__(client, email, amount)`. -/
def TransactionCtx.init (client : UserClient) (email : String) (amount : Rat) :
    TransactionCtx :=
  { client := client, email := email, amount := amount,
    transaction := none, confirmed := false }

/-- `TransactionCtx.__enter__`: create the transaction and store it; a
failure of the creation call propagates and the scope is not entered. -/
def TransactionCtx.enter (ctx : TransactionCtx) (transport : Transport) :
    OpResult TransactionCtx :=
  match ctx.client.create_transaction ctx.email ctx.amount transport with
  | (.ok t, reqs) => (.ok { ctx with transaction := some t }, reqs)
  | (.error e, reqs) => (.error e, reqs)

/-- `TransactionCtx.confirm`: `RuntimeError` when no transaction is stored;
otherwise confirm it, store the resolved transaction and set the flag.  A
failure of the confirm call leaves the state unchanged. -/
def TransactionCtx.confirm (ctx : TransactionCtx) (transport : Transport) :
    OpResult TransactionCtx :=
  match ctx.transaction with
  | none => (.error (.lifecycleError "No transaction to confirm."), [])
  | some t =>
    match ctx.client.confirm_transaction t.id transport with
    | (.ok resolved, reqs) =>
      (.ok { ctx with transaction := some resolved, confirmed := true }, reqs)
    | (.error e, reqs) => (.error e, reqs)

/-- `TransactionCtx.__exit__`: when unconfirmed with a stored transaction,
cancel it; `except Exception` turns **any** failure of the cancel call into
`ServiceException(500, {"message": "Failed to cancel transaction"})`. -/
def TransactionCtx.exit (ctx : TransactionCtx) (transport : Transport) :
    OpResult TransactionCtx :=
  match ctx.confirmed, ctx.transaction with
  | false, some t =>
    match ctx.client.cancel_transaction t.id transport with
    | (.ok cancelled, reqs) => (.ok { ctx with transaction := some cancelled }, reqs)
    | (.error _, reqs) =>
      (.error (.serviceError 500
        (Json.obj [("message", Json.str "Failed to cancel transaction")])), reqs)
  | _, _ => (.ok ctx, [])

/-- State of a `DelegatedTransactionCtx`, extending the direct controller
with the delegation token; `confirm` and `__exit__` are inherited. -/
structure DelegatedTransactionCtx extends TransactionCtx where
  token : String
  deriving Repr, DecidableEq

/-- `DelegatedTransactionCtx.__init__(client, email, amount, token)`. -/
def DelegatedTransactionCtx.init (client : UserClient) (email : String)
    (amount : Rat) (token : String) : DelegatedTransactionCtx :=
  { TransactionCtx.init client email amount with token := token }

/-- `DelegatedTransactionCtx.__enter__`: the delegated creation call. -/
def DelegatedTransactionCtx.enter (ctx : DelegatedTransactionCtx)
    (transport : Transport) : OpResult DelegatedTransactionCtx :=
  match ctx.client.create_delegated_transaction ctx.email ctx.amount ctx.token
      transport with
  | (.ok t, reqs) =>
    (.ok { ctx with toTransactionCtx :=
      { ctx.toTransactionCtx with transaction := some t } }, reqs)
  | (.error e, reqs) => (.error e, reqs)

/-- `UserClient.transfer(recipientEmail, amount)`. -/
def UserClient.transfer (c : UserClient) (recipientEmail : String)
    (amount : Rat) : TransactionCtx :=
  TransactionCtx.init c recipientEmail amount

/-- `UserClient.delegated_transfer(senderEmail, amount, token)`. -/
def UserClient.delegated_transfer (c : UserClient) (senderEmail : String)
    (amount : Rat) (token : String) : DelegatedTransactionCtx :=
  DelegatedTransactionCtx.init c senderEmail amount token

/-! ## Concrete fixtures used by witnesses and counterexamples -/

def sampleAdmin : AdminClient := { url := "http://svc", key := "admin-key" }

def sampleClient : UserClient :=
  { url := "http://svc", email := "alice@example.com", password := "pw" }

/-- Wire form of a freshly created (PENDING) transaction. -/
def pendingTransactionJson : Json := Json.obj [
  ("id", Json.str "tx1"),
  ("senderEmail", Json.str "alice@example.com"),
  ("recipientEmail", Json.str "bob@example.com"),
  ("createdBy", Json.str "SENDER"),
  ("amount", Json.num 50),
  ("status", Json.str "PENDING"),
  ("createdAt", Json.str "2024-01-01T00:00:00")]

def pendingTx : Transaction :=
  { id := "tx1", senderEmail := "alice@example.com",
    recipientEmail := "bob@example.com", createdBy := .SENDER,
    resolvedBy := none, amount := 50, status := .PENDING,
    createdAt := "2024-01-01T00:00:00", resolvedAt := none }

/-- A transport whose every response is a 200 with a transaction body. -/
def transactionOkTransport : Transport :=
  fun _ => .ok { status_code := 200,
                 body := Json.obj [("transaction", pendingTransactionJson)] }

/-- A transport on which every request times out. -/
def timeoutTransport : Transport :=
  fun _ => .error (.timeout "timed out")

/-- Wire form of a transaction the service reports as already resolved. -/
def completedTransactionJson : Json := Json.obj [
  ("id", Json.str "tx2"),
  ("senderEmail", Json.str "alice@example.com"),
  ("recipientEmail", Json.str "bob@example.com"),
  ("createdBy", Json.str "SENDER"),
  ("resolvedBy", Json.str "SENDER"),
  ("amount", Json.num 50),
  ("status", Json.str "COMPLETED"),
  ("createdAt", Json.str "2024-01-01T00:00:00"),
  ("resolvedAt", Json.str "2024-01-01T00:05:00")]

def completedTx : Transaction :=
  { id := "tx2", senderEmail := "alice@example.com",
    recipientEmail := "bob@example.com", createdBy := .SENDER,
    resolvedBy := some .SENDER, amount := 50, status := .COMPLETED,
    createdAt := "2024-01-01T00:00:00", resolvedAt := some "2024-01-01T00:05:00" }

def completedTransport : Transport :=
  fun _ => .ok { status_code := 200,
                 body := Json.obj [("transaction", completedTransactionJson)] }

def userAliceJson : Json := Json.obj [
  ("id", Json.str "u1"), ("email", Json.str "alice@example.com"),
  ("balance", Json.num 100)]

def userAlice : User :=
  { id := "u1", email := "alice@example.com", balance := 100 }

def userBobJson : Json := Json.obj [
  ("id", Json.str "u2"), ("email", Json.str "bob@example.com"),
  ("balance", Json.num 0)]

def userBob : User :=
  { id := "u2", email := "bob@example.com", balance := 0 }

/-- A transport answering the users query with two users. -/
def usersTransport : Transport :=
  fun _ => .ok { status_code := 200,
                 body := Json.obj [("users", Json.arr [userAliceJson, userBobJson])] }

/-- The 404 response of the spec's `get_user` example scenario. -/
def notFoundBody : Json := Json.obj [("error", Json.str "user not found")]

def notFoundResponse : HttpResponse := { status_code := 404, body := notFoundBody }

/-- A transport answering user creation with a server-generated password. -/
def createUserTransport : Transport :=
  fun _ => .ok { status_code := 200,
                 body := Json.obj [("user", userAliceJson),
                                   ("password", Json.str "generated-pw")] }

/-! ## Helper lemmas -/

theorem issue_requests (tr : Transport) (req : Request)
    (k : Json → Except SdkError α) : (issue tr req k).2 = [req] := by
  unfold issue
  cases tr req with
  | error e => rfl
  | ok resp => by_cases h : resp.ok <;> simp [h]

theorem issue_transport_error (tr : Transport) (req : Request)
    (k : Json → Except SdkError α) (e : TransportError)
    (h : tr req = .error e) :
    issue tr req k = (.error (.transportError e), [req]) := by
  unfold issue
  rw [h]

theorem issue_not_ok (tr : Transport) (req : Request)
    (k : Json → Except SdkError α) (resp : HttpResponse)
    (hreq : tr req = .ok resp) (hok : resp.ok = false) :
    issue tr req k = (.error (.serviceError resp.status_code resp.body), [req]) := by
  unfold issue
  rw [hreq]
  simp [hok]

theorem cancel_requests (c : UserClient) (id : String) (tr : Transport) :
    (c.cancel_transaction id tr).2 = [Request.cancelTransaction id] :=
  issue_requests tr (.cancelTransaction id) (parseField Transaction.parse "transaction")

/-- After a successful `__enter__`, the controller state is the initial one
with the created transaction stored and the confirmed flag still false. -/
theorem enter_ok_state (c : UserClient) (email : String) (amount : Rat)
    (tr : Transport) (ctx : TransactionCtx)
    (h : ((TransactionCtx.init c email amount).enter tr).1 = .ok ctx) :
    ∃ t, (c.create_transaction email amount tr).1 = .ok t ∧
      ctx = { client := c, email := email, amount := amount,
              transaction := some t, confirmed := false } := by
  unfold TransactionCtx.enter TransactionCtx.init at h
  dsimp only at h
  rcases hcr : c.create_transaction email amount tr with ⟨res, reqs⟩
  rw [hcr] at h
  cases res with
  | error e => exact absurd h (by simp)
  | ok t =>
    refine ⟨t, rfl, ?_⟩
    simpa using h.symm

/-- Same decomposition for the delegated controller's `__enter__`. -/
theorem delegated_enter_ok_state (c : UserClient) (email : String)
    (amount : Rat) (token : String) (tr : Transport)
    (dctx : DelegatedTransactionCtx)
    (h : ((DelegatedTransactionCtx.init c email amount token).enter tr).1 = .ok dctx) :
    ∃ t, (c.create_delegated_transaction email amount token tr).1 = .ok t ∧
      dctx.toTransactionCtx =
        { client := c, email := email, amount := amount,
          transaction := some t, confirmed := false } := by
  unfold DelegatedTransactionCtx.enter DelegatedTransactionCtx.init
    TransactionCtx.init at h
  dsimp only at h
  rcases hcr : c.create_delegated_transaction email amount token tr with ⟨res, reqs⟩
  rw [hcr] at h
  cases res with
  | error e => exact absurd h (by simp)
  | ok t =>
    refine ⟨t, rfl, ?_⟩
    have h2 := h.symm
    simp at h2
    rw [h2]

/-- `__exit__` of an unconfirmed controller with a stored transaction issues
exactly the one cancel request for that transaction's id. -/
theorem exit_requests_of_unconfirmed (ctx : TransactionCtx) (t : Transaction)
    (hc : ctx.confirmed = false) (ht : ctx.transaction = some t)
    (tr : Transport) :
    (ctx.exit tr).2 = [Request.cancelTransaction t.id] := by
  obtain ⟨cl, em, am, tx, cf⟩ := ctx
  simp only at hc ht
  subst hc ht
  unfold TransactionCtx.exit
  dsimp only
  rcases hcl : cl.cancel_transaction t.id tr with ⟨res, reqs⟩
  have hreqs : reqs = [Request.cancelTransaction t.id] := by
    have h2 := cancel_requests cl t.id tr
    rw [hcl] at h2
    exact h2
  cases res <;> simp [hreqs]

/-- `__exit__` of a confirmed controller does nothing and issues no request. -/
theorem exit_of_confirmed (ctx : TransactionCtx) (hc : ctx.confirmed = true)
    (tr : Transport) : ctx.exit tr = (.ok ctx, []) := by
  obtain ⟨cl, em, am, tx, cf⟩ := ctx
  simp only at hc
  subst hc
  rfl

/-- The controller state right after a successful sample acquisition. -/
def openCtx : TransactionCtx :=
  { client := sampleClient, email := "bob@example.com", amount := 50,
    transaction := some pendingTx, confirmed := false }

/-- The same state after a successful `confirm` against
`transactionOkTransport`. -/
def confirmedCtx : TransactionCtx :=
  { openCtx with transaction := some pendingTx, confirmed := true }

/-- A delegated controller in the same open state. -/
def openDelegatedCtx : DelegatedTransactionCtx :=
  { openCtx with token := "tok" }

/-- A successful `confirm` sets the confirmed flag. -/
theorem confirm_ok_confirmed (ctx ctx' : TransactionCtx) (tr : Transport)
    (h : (ctx.confirm tr).1 = .ok ctx') : ctx'.confirmed = true := by
  unfold TransactionCtx.confirm at h
  rcases ht : ctx.transaction with _ | t
  all_goals rw [ht] at h
  all_goals dsimp only at h
  · exact absurd h (by simp)
  · rcases hcf : ctx.client.confirm_transaction t.id tr with ⟨res, reqs⟩
    rw [hcf] at h
    cases res with
    | error e => exact absurd h (by simp)
    | ok resolved =>
      simp at h
      rw [← h]

/-! ## Claim theorems -/

/-- C1: for every Lifecycle Controller scope (direct or delegated) whose
acquisition succeeded, exiting without a successful `confirm` issues exactly
one `cancel_transaction` call carrying the created transaction's id, and
exiting after a successful `confirm` issues zero `cancel_transaction`
calls. -/
theorem C1_scope_cancel_protocol (c : UserClient) (email : String)
    (amount : Rat) (token : String) (tr₁ tr₂ tr₃ tr₄ : Transport)
    (ctx : TransactionCtx) (dctx : DelegatedTransactionCtx)
    (t td : Transaction) :
    ((c.create_transaction email amount tr₁).1 = .ok t →
      ((TransactionCtx.init c email amount).enter tr₁).1 = .ok ctx →
      ((ctx.exit tr₂).2 = [Request.cancelTransaction t.id] ∧
       ∀ ctx', (ctx.confirm tr₃).1 = .ok ctx' → (ctx'.exit tr₄).2 = []))
    ∧
    ((c.create_delegated_transaction email amount token tr₁).1 = .ok td →
      ((DelegatedTransactionCtx.init c email amount token).enter tr₁).1 = .ok dctx →
      ((dctx.toTransactionCtx.exit tr₂).2 = [Request.cancelTransaction td.id] ∧
       ∀ ctx', (dctx.toTransactionCtx.confirm tr₃).1 = .ok ctx' →
         (ctx'.exit tr₄).2 = [])) := by
  constructor
  · intro hcr henter
    obtain ⟨t', hcr', hctx⟩ := enter_ok_state c email amount tr₁ ctx henter
    have ht : t' = t := by
      rw [hcr] at hcr'
      exact (Except.ok.inj hcr').symm
    subst ht
    constructor
    · exact exit_requests_of_unconfirmed ctx t' (by rw [hctx]) (by rw [hctx]) tr₂
    · intro ctx' hconf
      rw [exit_of_confirmed ctx' (confirm_ok_confirmed ctx ctx' tr₃ hconf) tr₄]
  · intro hcr henter
    obtain ⟨t', hcr', hctx⟩ := delegated_enter_ok_state c email amount token
      tr₁ dctx henter
    have ht : t' = td := by
      rw [hcr] at hcr'
      exact (Except.ok.inj hcr').symm
    subst ht
    constructor
    · exact exit_requests_of_unconfirmed dctx.toTransactionCtx t'
        (by rw [hctx]) (by rw [hctx]) tr₂
    · intro ctx' hconf
      rw [exit_of_confirmed ctx'
        (confirm_ok_confirmed dctx.toTransactionCtx ctx' tr₃ hconf) tr₄]

/-- Witness for C1 at a concrete scope: a sample client, amount 50, and a
transport that answers every request with a 200 transaction body. -/
theorem C1_scope_cancel_protocol_witness :
    (openCtx.exit transactionOkTransport).2 = [Request.cancelTransaction pendingTx.id] ∧
    (confirmedCtx.exit transactionOkTransport).2 = ([] : List Request) ∧
    (openDelegatedCtx.toTransactionCtx.exit transactionOkTransport).2 =
      [Request.cancelTransaction pendingTx.id] ∧
    (confirmedCtx.exit transactionOkTransport).2 = ([] : List Request) := by
  have h := C1_scope_cancel_protocol sampleClient "bob@example.com" 50 "tok"
    transactionOkTransport transactionOkTransport transactionOkTransport
    transactionOkTransport openCtx openDelegatedCtx pendingTx pendingTx
  obtain ⟨h1, h2⟩ := h
  obtain ⟨ha, hb⟩ := h1 rfl rfl
  obtain ⟨hc, hd⟩ := h2 rfl rfl
  exact ⟨ha, hb confirmedCtx rfl, hc, hd confirmedCtx rfl⟩

/-- C2: `confirm` on a controller (direct or delegated) that stores no
transaction — never entered, or acquisition failed — raises the lifecycle
`RuntimeError` and issues no `confirm_transaction` request. -/
theorem C2_confirm_without_transaction (ctx : TransactionCtx)
    (dctx : DelegatedTransactionCtx) (tr tr' : Transport) :
    (ctx.transaction = none →
      ctx.confirm tr = (.error (.lifecycleError "No transaction to confirm."), [])) ∧
    (dctx.toTransactionCtx.transaction = none →
      dctx.toTransactionCtx.confirm tr' =
        (.error (.lifecycleError "No transaction to confirm."), [])) := by
  constructor
  · intro h
    unfold TransactionCtx.confirm
    rw [h]
  · intro h
    unfold TransactionCtx.confirm
    rw [h]

/-- Witness for C2 at freshly initialized (never-entered) controllers. -/
theorem C2_confirm_without_transaction_witness :
    (TransactionCtx.init sampleClient "bob@example.com" 50).confirm
        transactionOkTransport =
      (.error (.lifecycleError "No transaction to confirm."), []) ∧
    (DelegatedTransactionCtx.init sampleClient "bob@example.com" 50 "tok").toTransactionCtx.confirm
        transactionOkTransport =
      (.error (.lifecycleError "No transaction to confirm."), []) := by
  have h := C2_confirm_without_transaction
    (TransactionCtx.init sampleClient "bob@example.com" 50)
    (DelegatedTransactionCtx.init sampleClient "bob@example.com" 50 "tok")
    transactionOkTransport transactionOkTransport
  exact ⟨h.1 rfl, h.2 rfl⟩

/-- C4: every non-positive amount makes `add_balance`,
`create_transaction` and `create_delegated_transaction` fail with the local
`ValueError` and issue no request. -/
theorem C4_nonpositive_amount_rejected_locally (a : AdminClient)
    (u : UserClient) (email recipient sender token : String) (amount : Rat)
    (tr : Transport) (h : amount ≤ 0) :
    a.add_balance email amount tr =
      (.error (.validationError "Amount must be positive"), []) ∧
    u.create_transaction recipient amount tr =
      (.error (.validationError "Amount must be positive"), []) ∧
    u.create_delegated_transaction sender amount token tr =
      (.error (.validationError "Amount must be positive"), []) := by
  unfold AdminClient.add_balance UserClient.create_transaction
    UserClient.create_delegated_transaction
  rw [if_pos h, if_pos h, if_pos h]
  exact ⟨rfl, rfl, rfl⟩

/-- Witness for C4 at amount `0`. -/
theorem C4_nonpositive_amount_rejected_locally_witness :
    (0 : Rat) ≤ 0 ∧
    sampleAdmin.add_balance "alice@example.com" 0 transactionOkTransport =
      (.error (.validationError "Amount must be positive"), []) ∧
    sampleClient.create_transaction "bob@example.com" 0 transactionOkTransport =
      (.error (.validationError "Amount must be positive"), []) ∧
    sampleClient.create_delegated_transaction "carol@example.com" 0 "tok"
        transactionOkTransport =
      (.error (.validationError "Amount must be positive"), []) :=
  ⟨le_refl 0, C4_nonpositive_amount_rejected_locally sampleAdmin sampleClient
    "alice@example.com" "bob@example.com" "carol@example.com" "tok" 0
    transactionOkTransport (le_refl 0)⟩

/-- C7: a delegated creation call sends one request in which the caller is
the recipient (`recipientEmail = self.email`), `senderEmail` is the given
argument, and the delegation token is included. -/
theorem C7_delegated_request_is_caller_recipient (c : UserClient)
    (sender : String) (amount : Rat) (token : String) (tr : Transport)
    (h : 0 < amount) :
    (c.create_delegated_transaction sender amount token tr).2 =
      [Request.createTransaction sender c.email amount (some token)] := by
  unfold UserClient.create_delegated_transaction
  rw [if_neg (not_le.mpr h)]
  exact issue_requests tr _ _

/-- Witness for C7 at a concrete delegated call of amount 50. -/
theorem C7_delegated_request_is_caller_recipient_witness :
    (0 : Rat) < 50 ∧
    (sampleClient.create_delegated_transaction "carol@example.com" 50 "tok"
        transactionOkTransport).2 =
      [Request.createTransaction "carol@example.com" "alice@example.com" 50
        (some "tok")] :=
  ⟨by norm_num, C7_delegated_request_is_caller_recipient sampleClient
    "carol@example.com" 50 "tok" transactionOkTransport (by norm_num)⟩

/-- A transport on which every request fails with the given error. -/
def failingTransport (e : TransportError) : Transport := fun _ => .error e

/-- A transport whose every response is the given one. -/
def constTransport (resp : HttpResponse) : Transport := fun _ => .ok resp

theorem op_transport_error (e : TransportError) (req : Request)
    (k : Json → Except SdkError α) :
    (issue (failingTransport e) req k).1 = .error (.transportError e) := by
  rw [issue_transport_error (failingTransport e) req k e rfl]

/-- C3 counterexample: the release step of a successfully acquired scope
reinterprets a transport timeout of the cancel call as
`ServiceException(500, ...)` instead of letting it propagate unchanged. -/
theorem C3_release_wraps_transport_failure :
    ((TransactionCtx.init sampleClient "bob@example.com" 50).enter
        transactionOkTransport).1 = .ok openCtx ∧
    (openCtx.exit timeoutTransport).1 =
      .error (.serviceError 500
        (Json.obj [("message", Json.str "Failed to cancel transaction")])) ∧
    (openCtx.exit timeoutTransport).1 ≠
      .error (.transportError (.timeout "timed out")) := by
  refine ⟨rfl, rfl, ?_⟩
  intro hcontra
  injection hcontra with h2
  exact SdkError.noConfusion h2

/-- C3 amended: a transport-level failure propagates unchanged from every
core operation **except** the Lifecycle Controller's release step, which
replaces any failure of its cancel call — transport-level included — with
`ServiceException(500, {"message": "Failed to cancel transaction"})`. -/
theorem C3_transport_failures_propagate_except_release (e : TransportError)
    (a : AdminClient) (u : UserClient)
    (url email recipient sender token id format : String)
    (password : Option String) (amount : Rat) (h : 0 < amount)
    (ctx : TransactionCtx) (t : Transaction)
    (hc : ctx.confirmed = false) (ht : ctx.transaction = some t) :
    (a.create_user email password (failingTransport e)).1 =
      .error (.transportError e) ∧
    (a.add_balance email amount (failingTransport e)).1 =
      .error (.transportError e) ∧
    (a.get_user email (failingTransport e)).1 = .error (.transportError e) ∧
    (a.get_all_users format (failingTransport e)).1 =
      .error (.transportError e) ∧
    (UserClient.create_user url email password (failingTransport e)).1 =
      .error (.transportError e) ∧
    (u.get_user_info (failingTransport e)).1 = .error (.transportError e) ∧
    (u.create_transaction recipient amount (failingTransport e)).1 =
      .error (.transportError e) ∧
    (u.create_delegated_transaction sender amount token (failingTransport e)).1 =
      .error (.transportError e) ∧
    (u.create_transaction_token recipient (failingTransport e)).1 =
      .error (.transportError e) ∧
    (u.confirm_transaction id (failingTransport e)).1 =
      .error (.transportError e) ∧
    (u.cancel_transaction id (failingTransport e)).1 =
      .error (.transportError e) ∧
    (u.get_transaction_history (failingTransport e)).1 =
      .error (.transportError e) ∧
    ((TransactionCtx.init u recipient amount).enter (failingTransport e)).1 =
      .error (.transportError e) ∧
    ((DelegatedTransactionCtx.init u sender amount token).enter
        (failingTransport e)).1 = .error (.transportError e) ∧
    (ctx.confirm (failingTransport e)).1 = .error (.transportError e) ∧
    (ctx.exit (failingTransport e)).1 =
      .error (.serviceError 500
        (Json.obj [("message", Json.str "Failed to cancel transaction")])) := by
  have hcr : ∀ rec, (u.create_transaction rec amount (failingTransport e)) =
      (.error (.transportError e),
       [Request.createTransaction u.email rec amount none]) := by
    intro rec
    unfold UserClient.create_transaction
    rw [if_neg (not_le.mpr h)]
    exact issue_transport_error _ _ _ e rfl
  have hdcr : (u.create_delegated_transaction sender amount token
      (failingTransport e)) =
      (.error (.transportError e),
       [Request.createTransaction sender u.email amount (some token)]) := by
    unfold UserClient.create_delegated_transaction
    rw [if_neg (not_le.mpr h)]
    exact issue_transport_error _ _ _ e rfl
  obtain ⟨cl, em, am, tx, cf⟩ := ctx
  simp only at hc ht
  subst hc ht
  refine ⟨?_, ?_, ?_, ?_, ?_, ?_, ?_, ?_, ?_, ?_, ?_, ?_, ?_, ?_, ?_, ?_⟩
  · unfold AdminClient.create_user create_user_request
    exact op_transport_error e _ _
  · unfold AdminClient.add_balance
    rw [if_neg (not_le.mpr h)]
    exact op_transport_error e _ _
  · unfold AdminClient.get_user
    exact op_transport_error e _ _
  · unfold AdminClient.get_all_users
    exact op_transport_error e _ _
  · unfold UserClient.create_user create_user_request
    exact op_transport_error e _ _
  · unfold UserClient.get_user_info
    exact op_transport_error e _ _
  · rw [congrArg Prod.fst (hcr recipient)]
  · rw [congrArg Prod.fst hdcr]
  · unfold UserClient.create_transaction_token
    exact op_transport_error e _ _
  · unfold UserClient.confirm_transaction
    exact op_transport_error e _ _
  · unfold UserClient.cancel_transaction
    exact op_transport_error e _ _
  · unfold UserClient.get_transaction_history
    exact op_transport_error e _ _
  · unfold TransactionCtx.enter TransactionCtx.init
    dsimp only
    rw [hcr recipient]
  · unfold DelegatedTransactionCtx.enter DelegatedTransactionCtx.init
      TransactionCtx.init
    dsimp only
    rw [hdcr]
  · unfold TransactionCtx.confirm
    dsimp only
    have hcf : cl.confirm_transaction t.id (failingTransport e) =
        (.error (.transportError e), [Request.confirmTransaction t.id]) :=
      issue_transport_error _ _ _ e rfl
    rw [hcf]
  · unfold TransactionCtx.exit
    dsimp only
    have hcl : cl.cancel_transaction t.id (failingTransport e) =
        (.error (.transportError e), [Request.cancelTransaction t.id]) :=
      issue_transport_error _ _ _ e rfl
    rw [hcl]

/-- Witness for C3's amended statement, at a timeout error, concrete
arguments of amount 50 and the sample open controller state. -/
theorem C3_transport_failures_propagate_except_release_witness :
    (0 : Rat) < 50 ∧ openCtx.confirmed = false ∧
    openCtx.transaction = some pendingTx ∧
    (sampleClient.create_transaction "bob@example.com" 50
        (failingTransport (.timeout "timed out"))).1 =
      .error (.transportError (.timeout "timed out")) ∧
    (openCtx.exit (failingTransport (.timeout "timed out"))).1 =
      .error (.serviceError 500
        (Json.obj [("message", Json.str "Failed to cancel transaction")])) := by
  have hall := C3_transport_failures_propagate_except_release
    (.timeout "timed out") sampleAdmin sampleClient "http://svc"
    "carol@example.com" "bob@example.com" "dave@example.com" "tok" "tx1"
    "list" (some "pw") 50 (by norm_num) openCtx pendingTx rfl rfl
  exact ⟨by norm_num, rfl, rfl, hall.2.2.2.2.2.2.1, hall.2.2.2.2.2.2.2.2.2.2.2.2.2.2.2⟩

/-- C5: the code contradicts its own docstring — `get_all_users` with an
invalid `format` issues the GET `/users` request and returns the dict
(never a local `ValueError`); evaluation at `format = "bogus"`. -/
theorem C5_invalid_format_not_rejected :
    sampleAdmin.get_all_users "bogus" usersTransport =
      (.ok (.asDict [("alice@example.com", userAlice),
                     ("bob@example.com", userBob)]),
       [Request.getUsers]) := by
  rfl

theorem op_service_error (resp : HttpResponse) (hok : resp.ok = false)
    (req : Request) (k : Json → Except SdkError α) :
    (issue (constTransport resp) req k).1 =
      .error (.serviceError resp.status_code resp.body) := by
  rw [issue_not_ok (constTransport resp) req k resp rfl hok]

/-- C8: every network-backed operation turns a non-success response into a
`ServiceException` carrying that response's status code and body; in
particular a 404 `{"error": "user not found"}` response makes `get_user`
fail with a `ServiceException` of code 404. -/
theorem C8_non_success_response_is_service_error (resp : HttpResponse)
    (hok : resp.ok = false) (a : AdminClient) (u : UserClient)
    (url email recipient sender token id format : String)
    (password : Option String) (amount : Rat) (h : 0 < amount) :
    (a.create_user email password (constTransport resp)).1 =
      .error (.serviceError resp.status_code resp.body) ∧
    (a.add_balance email amount (constTransport resp)).1 =
      .error (.serviceError resp.status_code resp.body) ∧
    (a.get_user email (constTransport resp)).1 =
      .error (.serviceError resp.status_code resp.body) ∧
    (a.get_all_users format (constTransport resp)).1 =
      .error (.serviceError resp.status_code resp.body) ∧
    (UserClient.create_user url email password (constTransport resp)).1 =
      .error (.serviceError resp.status_code resp.body) ∧
    (u.get_user_info (constTransport resp)).1 =
      .error (.serviceError resp.status_code resp.body) ∧
    (u.create_transaction recipient amount (constTransport resp)).1 =
      .error (.serviceError resp.status_code resp.body) ∧
    (u.create_delegated_transaction sender amount token (constTransport resp)).1 =
      .error (.serviceError resp.status_code resp.body) ∧
    (u.create_transaction_token recipient (constTransport resp)).1 =
      .error (.serviceError resp.status_code resp.body) ∧
    (u.confirm_transaction id (constTransport resp)).1 =
      .error (.serviceError resp.status_code resp.body) ∧
    (u.cancel_transaction id (constTransport resp)).1 =
      .error (.serviceError resp.status_code resp.body) ∧
    (u.get_transaction_history (constTransport resp)).1 =
      .error (.serviceError resp.status_code resp.body) ∧
    (a.get_user email (constTransport notFoundResponse)).1 =
      .error (.serviceError 404 notFoundBody) := by
  refine ⟨op_service_error resp hok _ _, ?_, op_service_error resp hok _ _,
    op_service_error resp hok _ _, op_service_error resp hok _ _,
    op_service_error resp hok _ _, ?_, ?_, op_service_error resp hok _ _,
    op_service_error resp hok _ _, op_service_error resp hok _ _,
    op_service_error resp hok _ _, op_service_error notFoundResponse rfl _ _⟩
  · unfold AdminClient.add_balance
    rw [if_neg (not_le.mpr h)]
    exact op_service_error resp hok _ _
  · unfold UserClient.create_transaction
    rw [if_neg (not_le.mpr h)]
    exact op_service_error resp hok _ _
  · unfold UserClient.create_delegated_transaction
    rw [if_neg (not_le.mpr h)]
    exact op_service_error resp hok _ _

/-- Witness for C8 at the spec's 404 example scenario. -/
theorem C8_non_success_response_is_service_error_witness :
    notFoundResponse.ok = false ∧ (0 : Rat) < 50 ∧
    (sampleAdmin.get_user "carol@example.com" (constTransport notFoundResponse)).1 =
      .error (.serviceError 404 notFoundBody) ∧
    (sampleClient.create_transaction "bob@example.com" 50
        (constTransport notFoundResponse)).1 =
      .error (.serviceError 404 notFoundBody) := by
  have hall := C8_non_success_response_is_service_error notFoundResponse rfl
    sampleAdmin sampleClient "http://svc" "carol@example.com"
    "bob@example.com" "dave@example.com" "tok" "tx1" "list" (some "pw") 50
    (by norm_num)
  exact ⟨rfl, by norm_num, hall.2.2.1, hall.2.2.2.2.2.2.1⟩

/-- C9 counterexample: the client returns the server's transaction verbatim,
so a successful `create_transaction` whose response reports an already
resolved transaction yields `status = COMPLETED` and a non-null
`resolvedBy`, not `PENDING`/`None`. -/
theorem C9_create_transaction_returns_non_pending :
    (sampleClient.create_transaction "bob@example.com" 50 completedTransport).1 =
      .ok completedTx ∧
    completedTx.status ≠ .PENDING ∧ completedTx.resolvedBy ≠ none := by
  exact ⟨rfl, by decide, by decide⟩

/-- C9 amended: a `Transaction` returned by a successful
`create_transaction` is the verbatim parse of the server response's
`transaction` field — so it has `status = PENDING` and `resolvedBy = None`
exactly when the response says so. -/
theorem C9_create_transaction_verbatim_snapshot (c : UserClient)
    (recipient : String) (amount : Rat) (tr : Transport) (t : Transaction)
    (h : (c.create_transaction recipient amount tr).1 = .ok t) :
    ∃ resp, tr (Request.createTransaction c.email recipient amount none) =
        .ok resp ∧ resp.ok = true ∧
      (resp.body.lookup "transaction").bind Transaction.parse = some t := by
  unfold UserClient.create_transaction at h
  by_cases ha : amount ≤ 0
  · rw [if_pos ha] at h
    exact absurd h (by simp)
  · rw [if_neg ha] at h
    unfold issue at h
    rcases htr : tr (Request.createTransaction c.email recipient amount none)
      with e | resp
    all_goals rw [htr] at h
    · exact absurd h (by simp)
    · by_cases hro : resp.ok
      all_goals simp only [hro, if_true, if_false, Bool.false_eq_true] at h
      · refine ⟨resp, rfl, hro, ?_⟩
        unfold parseField at h
        rcases hp : (resp.body.lookup "transaction").bind Transaction.parse
          with _ | a
        all_goals rw [hp] at h
        · exact absurd h (by simp)
        · rw [Except.ok.inj h]
      · exact absurd h (by simp)

/-- Witness for C9's amended statement at a concrete pending response. -/
theorem C9_create_transaction_verbatim_snapshot_witness :
    (sampleClient.create_transaction "bob@example.com" 50
        transactionOkTransport).1 = .ok pendingTx ∧
    ∃ resp, transactionOkTransport
        (Request.createTransaction "alice@example.com" "bob@example.com" 50 none) =
        .ok resp ∧ resp.ok = true ∧
      (resp.body.lookup "transaction").bind Transaction.parse = some pendingTx :=
  ⟨rfl, C9_create_transaction_verbatim_snapshot sampleClient "bob@example.com"
    50 transactionOkTransport pendingTx rfl⟩

/-- C10: when the caller supplies the empty string as password, both
`create_user` variants return the server's generated password — the code
tests the caller's password for truthiness, and `""` is falsy. -/
theorem C10_empty_password_returns_server_password (a : AdminClient)
    (url email : String) (tr : Transport) (resp : HttpResponse) (u : User)
    (pw : String)
    (hreq : tr (Request.createUser email (some "")) = .ok resp)
    (hok : resp.ok = true)
    (huser : (resp.body.lookup "user").bind User.parse = some u)
    (hpw : (resp.body.lookup "password").bind Json.asStr = some pw) :
    (a.create_user email (some "") tr).1 = .ok (u, pw) ∧
    (UserClient.create_user url email (some "") tr).1 = .ok (u, pw) ∧
    truthy (some "") = false := by
  have hbody : create_user_request email (some "") tr = (.ok (u, pw),
      [Request.createUser email (some "")]) := by
    simp only [create_user_request, issue, hreq]
    simp only [hok, if_true]
    simp only [parseField, huser]
    simp [truthy, hpw]
    rfl
  refine ⟨?_, ?_, rfl⟩
  · unfold AdminClient.create_user
    rw [congrArg Prod.fst hbody]
  · unfold UserClient.create_user
    rw [congrArg Prod.fst hbody]

/-- Witness for C10 at a concrete creation response carrying a generated
password. -/
theorem C10_empty_password_returns_server_password_witness :
    (sampleAdmin.create_user "alice@example.com" (some "")
        createUserTransport).1 = .ok (userAlice, "generated-pw") ∧
    (UserClient.create_user "http://svc" "alice@example.com" (some "")
        createUserTransport).1 = .ok (userAlice, "generated-pw") ∧
    truthy (some "") = false :=
  C10_empty_password_returns_server_password sampleAdmin "http://svc"
    "alice@example.com" createUserTransport
    { status_code := 200,
      body := Json.obj [("user", userAliceJson),
                        ("password", Json.str "generated-pw")] }
    userAlice "generated-pw" rfl rfl rfl rfl

/-- Folding Python-dict insertion over users with pairwise-distinct emails
appends one entry per user, in order. -/
theorem foldl_dictInsert_eq (users : List User) :
    ∀ acc : List (String × User),
    (∀ u ∈ users, ∀ p ∈ acc, p.1 ≠ u.email) →
    (users.map User.email).Nodup →
    users.foldl (fun a u => dictInsert a u.email u) acc =
      acc ++ users.map (fun u => (u.email, u)) := by
  induction users with
  | nil =>
    intro acc _ _
    simp
  | cons u us ih =>
    intro acc hdisj hnd
    simp only [List.foldl_cons, List.map_cons]
    have hany : acc.any (fun p => p.1 = u.email) = false := by
      simp only [List.any_eq_false, decide_eq_true_eq]
      intro p hp
      exact hdisj u (List.mem_cons_self u us) p hp
    have hstep : dictInsert acc u.email u = acc ++ [(u.email, u)] := by
      unfold dictInsert
      rw [hany]
      simp
    rw [hstep]
    have hnd2 : (us.map User.email).Nodup := (List.nodup_cons.mp (by simpa using hnd)).2
    have hhead : u.email ∉ us.map User.email := (List.nodup_cons.mp (by simpa using hnd)).1
    rw [ih (acc ++ [(u.email, u)]) ?_ hnd2]
    · simp
    · intro v hv p hp
      rcases List.mem_append.mp hp with hp | hp
      · exact hdisj v (List.mem_cons_of_mem u hv) p hp
      · have hpe : p = (u.email, u) := by simpa using hp
        rw [hpe]
        intro hcontra
        have he : u.email = v.email := hcontra
        exact hhead (by rw [he]; exact List.mem_map_of_mem User.email hv)

/-- With pairwise-distinct emails, `{user.email: user for user in users}`
is exactly the ordered association list of `(email, user)` pairs. -/
theorem dictOfUsers_eq_map (users : List User)
    (hnd : (users.map User.email).Nodup) :
    dictOfUsers users = users.map (fun u => (u.email, u)) := by
  have h := foldl_dictInsert_eq users [] (by simp) hnd
  simpa [dictOfUsers] using h

/-- C6: on the same successful users response, `get_all_users("dict")`
returns exactly the email-keyed entries of the users that
`get_all_users("list")` returns, each email mapped to the user carrying it;
in particular the dict's keys are exactly the list's emails.  (Emails are
unique per the data model's invariant, hence the `Nodup` hypothesis.) -/
theorem C6_dict_agrees_with_list (a : AdminClient) (tr : Transport)
    (users : List User)
    (hlist : (a.get_all_users "list" tr).1 = .ok (.asList users))
    (hnd : (users.map User.email).Nodup) :
    (a.get_all_users "dict" tr).1 =
      .ok (.asDict (users.map (fun u => (u.email, u)))) ∧
    (users.map (fun u => (u.email, u))).map Prod.fst = users.map User.email := by
  refine ⟨?_, by simp⟩
  unfold AdminClient.get_all_users issue at hlist ⊢
  rcases htr : tr Request.getUsers with e | resp
  all_goals rw [htr] at hlist
  · exact absurd hlist (by simp)
  · dsimp only at hlist ⊢
    by_cases hro : resp.ok = true
    all_goals simp only [hro, if_true, Bool.false_eq_true, if_false] at hlist ⊢
    case neg => exact absurd hlist (by simp)
    rcases hlk : resp.body.lookup "users" with _ | j
    all_goals rw [hlk] at hlist
    · exact absurd hlist (by simp)
    · cases j with
      | arr items =>
        dsimp only at hlist ⊢
        rcases hpl : parseUserList items with _ | us
        all_goals rw [hpl] at hlist
        · exact absurd hlist (by simp)
        · dsimp only at hlist ⊢
          have hus : us = users := by
            have h2 := Except.ok.inj hlist
            injection h2
          subst hus
          rw [if_neg (by decide)]
          rw [dictOfUsers_eq_map us hnd]
      | null => exact absurd hlist (by simp)
      | str s => exact absurd hlist (by simp)
      | num q => exact absurd hlist (by simp)
      | bool b => exact absurd hlist (by simp)
      | obj fields => exact absurd hlist (by simp)


/-- Witness for C6 at a concrete two-user response. -/
theorem C6_dict_agrees_with_list_witness :
    (sampleAdmin.get_all_users "list" usersTransport).1 =
      .ok (.asList [userAlice, userBob]) ∧
    (([userAlice, userBob] : List User).map User.email).Nodup ∧
    (sampleAdmin.get_all_users "dict" usersTransport).1 =
      .ok (.asDict (([userAlice, userBob] : List User).map
        (fun u => (u.email, u)))) ∧
    (([userAlice, userBob] : List User).map (fun u => (u.email, u))).map
        Prod.fst =
      ([userAlice, userBob] : List User).map User.email := by
  have h := C6_dict_agrees_with_list sampleAdmin usersTransport
    [userAlice, userBob] rfl (by decide)
  exact ⟨rfl, by decide, h.1, h.2⟩

end AccountingSDK
